import Mathlib

/-!
Verification of the sarbaz-server billing, entitlement and session core.

Shallow embedding of the Python sources:
  * `app/routes/billing.py`        — Google verify endpoint and helper
  * `app/routes/billing_apple.py`  — Apple StoreKit2 verify endpoint
  * `app/routes/auth.py`           — session refresh rotation
  * `app/services/billing_sync_cron.py` — background re-sync sweep
  * `app/models.py`                — the derived premium predicate

Timestamps are modelled as integers on one abstract UTC axis; nullable
database columns are `Option` values.  SQLAlchemy sessions are modelled
by explicit list-of-rows state passing; queries become list operations
translated from the filter expressions, and (as with the library's
default autoflush) a query issued after an in-session update sees the
updated rows.  Certificate and JWS signatures are modelled symbolically:
each signed object records which key actually produced its signature,
and a verification succeeds exactly when that key is the issuer's.
-/

namespace Sarbaz

/-- Purchase ledger row.  The `AppPurchase` model class itself is declared
outside these sources; its columns are exactly the fields assigned by the
routes (`billing.py` lines 256-272, `billing_apple.py` lines 260-274,
`billing_sync_cron.py` lines 92-97). -/
structure AppPurchase where
  app_code : String
  user_id : Nat
  product_id : Option String
  purchase_token : String
  store : String
  purchased_at : Int
  expires_at : Option Int
  is_active : Bool
deriving Repr, DecidableEq

/-- Response body of both verify endpoints
(`billing.py` lines 300-303, `billing_apple.py` lines 299-302). -/
structure VerifyResponse where
  is_premium : Bool
  premium_until : Option Int
deriving Repr, DecidableEq

/-- The verify endpoints' mutable state: the purchase ledger plus the
current user's cached `premium_until` column. -/
structure VerifyState where
  db : List AppPurchase
  premium_until : Option Int
deriving Repr, DecidableEq

/-- `UserSarbaz.is_premium` (`app/models.py` lines 55-62): true iff
`premium_until` is set and strictly later than now.  The endpoints inline
the same expression `bool(user.premium_until and user.premium_until > now)`
(`billing.py` line 296, `billing_apple.py` line 297). -/
def is_premium_of (premium_until : Option Int) (now : Int) : Bool :=
  match premium_until with
  | none => false
  | some t => t > now

/-- `db.query(AppPurchase).filter(AppPurchase.purchase_token == token).first()`
(`billing.py` lines 247-251, `billing_apple.py` lines 253-257). -/
def findByToken (db : List AppPurchase) (token : String) : Option AppPurchase :=
  db.find? (fun p => p.purchase_token == token)

/-- In-place update of the first row matching a purchase token (the ORM
mutates the row object returned by `.first()`). -/
def updateFirst (db : List AppPurchase) (token : String)
    (f : AppPurchase → AppPurchase) : List AppPurchase :=
  match db with
  | [] => []
  | p :: rest =>
      if p.purchase_token == token then f p :: rest
      else p :: updateFirst rest token f

/-- Rows satisfying the reconciliation query
`user_id == uid AND is_active == True AND expires_at > now`
(`billing.py` lines 281-290, `billing_apple.py` lines 280-289); a NULL
`expires_at` fails the SQL comparison. -/
def activeRows (db : List AppPurchase) (uid : Nat) (now : Int) : List AppPurchase :=
  db.filter (fun p =>
    p.user_id == uid && p.is_active &&
      (match p.expires_at with
       | some e => e > now
       | none => false))

/-- `order_by(AppPurchase.expires_at.desc()).first()` then `.expires_at`:
the latest expiry among the user's qualifying active rows, or `none`. -/
def latestActiveExpiry (db : List AppPurchase) (uid : Nat) (now : Int) : Option Int :=
  (activeRows db uid now).foldl
    (fun acc p =>
      match acc, p.expires_at with
      | none, e => e
      | some a, some e => some (max a e)
      | some a, none => some a)
    none

/-- One vendor line item as read by the routes: `item.get("expiryTime")`
run through `parse_google_datetime` (so an absent or unparseable value is
`none`), and `item.get("productId")`. -/
structure LineItem where
  expiryTime : Option Int
  productId : Option String
deriving Repr, DecidableEq

/-- The fields of Google's `SubscriptionPurchaseV2` document that the
routes read: the top-level `subscriptionState` (default `"UNKNOWN"` is the
caller's concern) and `lineItems`. -/
structure GoogleSubPayload where
  subscriptionState : String
  lineItems : List LineItem
deriving Repr, DecidableEq

/-- The serving endpoint's line-item scan (`billing.py` lines 225-233):
track the running maximum expiry, and take the product id of whichever
item last raised the maximum. -/
def scanLineItemsDebug (items : List LineItem) : Option Int × Option String :=
  items.foldl
    (fun acc item =>
      match item.expiryTime, acc.1 with
      | some e, none => (some e, item.productId)
      | some e, some m => if e > m then (some e, item.productId) else acc
      | none, _ => acc)
    (none, none)

/-- Python truthiness of the `selected_product_id` variable:
`None` and `""` are falsy. -/
def strFalsy : Option String → Bool
  | none => true
  | some s => s == ""

/-- `verify_google_subscription_v2` (`billing.py` lines 72-146), from the
decoded 200-payload on: maps the vendor state enumeration to entitlement
(`ACTIVE`/`IN_GRACE_PERIOD` entitled; `CANCELED` entitled only with a
future expiry; anything else not), takes the maximal expiry over all line
items, and returns `(is_active, max_expiry, product_id)` where
`is_active = is_entitled AND max_expiry > now`. -/
def verify_google_subscription_v2 (now : Int) (payload : GoogleSubPayload) :
    Bool × Option Int × Option String :=
  match payload.lineItems with
  | [] => (false, none, none)
  | items =>
    let st := payload.subscriptionState
    let step := fun (acc : Option Int × Bool × Option String) (item : LineItem) =>
      let max_expiry' :=
        match item.expiryTime, acc.1 with
        | some e, none => some e
        | some e, some m => if e > m then some e else some m
        | none, m => m
      let item_entitled :=
        if st = "SUBSCRIPTION_STATE_ACTIVE" ∨ st = "SUBSCRIPTION_STATE_IN_GRACE_PERIOD" then
          true
        else if st = "SUBSCRIPTION_STATE_CANCELED" then
          match item.expiryTime with
          | some e => e > now
          | none => false
        else false
      if item_entitled then
        (max_expiry', true,
          if strFalsy acc.2.2 then item.productId else acc.2.2)
      else
        (max_expiry', acc.2.1, acc.2.2)
    let r := items.foldl step (none, false, none)
    let is_active :=
      r.2.1 && (match r.1 with
                | some e => e > now
                | none => false)
    let product_id :=
      if strFalsy r.2.2 then (items.head?.bind (·.productId)) else r.2.2
    (is_active, r.1, product_id)

/-- The fresh row inserted by the Google verify endpoint
(`billing.py` lines 256-266). -/
def googleNewRow (uid : Nat) (now : Int) (token : String)
    (max_expiry : Option Int) (product_id : Option String) (is_active : Bool) :
    AppPurchase :=
  { app_code := "sarbaz", user_id := uid, product_id := product_id,
    purchase_token := token, store := "google", purchased_at := now,
    expires_at := max_expiry, is_active := is_active }

/-- The in-place field update applied to an existing row by the Google
verify endpoint (`billing.py` lines 270-272). -/
def googleRowUpdate (max_expiry : Option Int) (product_id : Option String)
    (is_active : Bool) (gp : AppPurchase) : AppPurchase :=
  { gp with expires_at := max_expiry, is_active := is_active,
            product_id := product_id }

/-- The upsert of the Google verify endpoint (`billing.py` lines 247-272):
insert a fresh `store="google"` row, or update `expires_at`, `is_active`
and `product_id` of the first row with this purchase token. -/
def googleUpsert (db : List AppPurchase) (uid : Nat) (now : Int) (token : String)
    (max_expiry : Option Int) (product_id : Option String) (is_active : Bool) :
    List AppPurchase :=
  match findByToken db token with
  | none => db ++ [googleNewRow uid now token max_expiry product_id is_active]
  | some _ => updateFirst db token (googleRowUpdate max_expiry product_id is_active)

/-- The serving Google verify endpoint from the decoded 200-payload on
(`billing.py` lines 220-303, the `DEBUG`-version actually mounted on
`POST /api/billing/verify`): scan the line items, set
`is_active = bool(max_expiry and max_expiry > now)` — the
`subscriptionState` field is never read — upsert the ledger row, then
recompute the user's `premium_until`: if active, raise it to the new
expiry when larger; otherwise re-derive it from the remaining active
rows. -/
def verify_purchase_core (now : Int) (uid : Nat) (payload : GoogleSubPayload)
    (token : String) (st : VerifyState) : VerifyResponse × VerifyState :=
  let parsed := scanLineItemsDebug payload.lineItems
  let max_expiry := parsed.1
  let product_id := parsed.2
  let is_active :=
    match max_expiry with
    | some e => e > now
    | none => false
  let db1 := googleUpsert st.db uid now token max_expiry product_id is_active
  let premium1 :=
    match is_active, max_expiry with
    | true, some e =>
        match st.premium_until with
        | none => some e
        | some c => if e > c then some e else some c
    | _, _ => latestActiveExpiry db1 uid now
  (⟨is_premium_of premium1 now, premium1⟩, ⟨db1, premium1⟩)

/-- `BUNDLE_ID_EXPECTED` (`billing_apple.py` line 27). -/
def BUNDLE_ID_EXPECTED : String := "kz.sarbazinfo5000.app"

/-- The decoded StoreKit2 transaction payload fields read by the Apple
route. -/
structure ApplePayload where
  bundleId : Option String
  productId : Option String
  expiresDate : Option Int
  originalTransactionId : Option String
  transactionId : Option String
deriving Repr, DecidableEq

/-- `_extract_expiry` (`billing_apple.py` lines 156-172): missing or
non-positive `expiresDate` means no subscription expiry.  The time axis
is milliseconds, so `datetime.fromtimestamp(ms / 1000)` is the identity
on it. -/
def extract_expiry (expiresDate : Option Int) : Option Int :=
  match expiresDate with
  | none => none
  | some ms => if ms ≤ 0 then none else some ms

/-- Python's `a or b` on optional strings: `None` and `""` are falsy. -/
def orStr : Option String → Option String → Option String
  | some s, b => if s == "" then b else some s
  | none, b => b

/-- `_extract_purchase_token` (`billing_apple.py` lines 175-188):
first of `req.transactionId`, `payload.originalTransactionId`,
`payload.transactionId`; `none` when all are falsy or blank. -/
def extract_purchase_token (reqTx : Option String) (payload : ApplePayload) :
    Option String :=
  match orStr reqTx (orStr payload.originalTransactionId payload.transactionId) with
  | none => none
  | some s => if s == "" then none else some s

/-- The fresh row inserted by the Apple verify endpoint
(`billing_apple.py` lines 260-270). -/
def appleNewRow (uid : Nat) (now : Int) (token : String) (product_id : String)
    (expires_at : Int) (is_active : Bool) : AppPurchase :=
  { app_code := "sarbaz", user_id := uid, product_id := some product_id,
    purchase_token := token, store := "apple", purchased_at := now,
    expires_at := some expires_at, is_active := is_active }

/-- The in-place field update applied to an existing row by the Apple
verify endpoint (`billing_apple.py` lines 272-274). -/
def appleRowUpdate (product_id : String) (expires_at : Int) (is_active : Bool)
    (ap : AppPurchase) : AppPurchase :=
  { ap with product_id := some product_id, expires_at := some expires_at,
            is_active := is_active }

/-- The upsert of the Apple verify endpoint (`billing_apple.py` lines
253-274): insert a fresh `store="apple"` row, or update `product_id`,
`expires_at` and `is_active` of the first row with this purchase token. -/
def appleUpsert (db : List AppPurchase) (uid : Nat) (now : Int) (token : String)
    (product_id : String) (expires_at : Int) (is_active : Bool) :
    List AppPurchase :=
  match findByToken db token with
  | none => db ++ [appleNewRow uid now token product_id expires_at is_active]
  | some _ => updateFirst db token (appleRowUpdate product_id expires_at is_active)

/-- The Apple verify endpoint from the successfully decoded payload on
(`billing_apple.py` lines 224-302): bundle-id and product-id mismatches
and a missing expiry or transaction id silently deny without touching
state; otherwise the ledger row is upserted and the user's
`premium_until` is re-derived from the active rows (the fresh row
included), with no max-against-the-cached-value step. -/
def verify_apple_core (now : Int) (uid : Nat) (product_id : String)
    (reqTx : Option String) (payload : ApplePayload) (st : VerifyState) :
    VerifyResponse × VerifyState :=
  if payload.bundleId ≠ some BUNDLE_ID_EXPECTED then (⟨false, none⟩, st)
  else if payload.productId ≠ some product_id then (⟨false, none⟩, st)
  else
    match extract_expiry payload.expiresDate with
    | none => (⟨false, none⟩, st)
    | some premium_until_new =>
      let is_active := premium_until_new > now
      match extract_purchase_token reqTx payload with
      | none => (⟨false, none⟩, st)
      | some token =>
        let db1 := appleUpsert st.db uid now token product_id premium_until_new is_active
        let premium1 := latestActiveExpiry db1 uid now
        (⟨is_premium_of premium1 now, premium1⟩, ⟨db1, premium1⟩)

/-! ### Certificate chain and StoreKit2 JWS (`billing_apple.py` lines 50-153) -/

/-- Key algorithm families distinguished by `_verify_cert_signed_by`. -/
inductive KeyType
  | rsa
  | ec
  | other
deriving Repr, DecidableEq

/-- Symbolic X.509 certificate: a public key identity, key type, validity
window, and the identity of the key that actually produced its signature
(a signature verification against key `k` succeeds exactly when
`signerKeyId = k`). -/
structure Certificate where
  keyId : Nat
  keyType : KeyType
  not_valid_before : Int
  not_valid_after : Int
  signerKeyId : Nat
deriving Repr, DecidableEq

/-- The distinct failure modes of the chain helpers. -/
inductive ChainError
  | chainTooShort
  | certificateNotYetValid
  | certificateExpired
  | signatureMismatch
  | unsupportedKeyType
deriving Repr, DecidableEq

/-- `_verify_cert_signed_by` (`billing_apple.py` lines 54-74): verify the
child's signature with the issuer's RSA or EC public key; any other key
type raises. -/
def verify_cert_signed_by (child issuer : Certificate) : Except ChainError Unit :=
  match issuer.keyType with
  | .rsa => if child.signerKeyId == issuer.keyId then .ok () else .error .signatureMismatch
  | .ec => if child.signerKeyId == issuer.keyId then .ok () else .error .signatureMismatch
  | .other => .error .unsupportedKeyType

/-- `_verify_cert_validity` (`billing_apple.py` lines 77-92): every
certificate's window must contain now; the not-yet-valid test precedes the
expired test. -/
def verify_cert_validity (now : Int) : List Certificate → Except ChainError Unit
  | [] => .ok ()
  | c :: rest =>
      if c.not_valid_before > now then .error .certificateNotYetValid
      else if c.not_valid_after < now then .error .certificateExpired
      else verify_cert_validity now rest

/-- `_verify_x5c_chain` (`billing_apple.py` lines 95-110): require at
least two certificates, check the validity windows of leaf, intermediate
and the pinned root, then `leaf` signed by `intermediate` and
`intermediate` signed by the root; return the leaf. -/
def verify_x5c_chain (now : Int) (x5c : List Certificate) (apple_root : Certificate) :
    Except ChainError Certificate :=
  match x5c with
  | leaf :: intermediate :: _ => do
      verify_cert_validity now [leaf, intermediate, apple_root]
      verify_cert_signed_by leaf intermediate
      verify_cert_signed_by intermediate apple_root
      pure leaf
  | _ => .error .chainTooShort

/-- Symbolic StoreKit2 JWS: the untrusted header fields the code reads
(`alg`, `x5c`), the claims payload, and the ground truth of the signature:
which key signed the structure and with which algorithm. -/
structure SK2JWS where
  alg : Option String
  x5c : Option (List Certificate)
  payload : ApplePayload
  sigKeyId : Nat
  sigAlg : String
deriving Repr, DecidableEq

/-- Behaviour of `jwt.decode(jws, key, algorithms=[alg])` when `key` is an
asymmetric public-key object from `cryptography`, per algorithm name:
`"none"` raises `InvalidKeyError` (the key is not `None`), the HMAC
algorithms raise at `prepare_key` (the key is not bytes), names PyJWT has
not registered raise `NotImplementedError`, the ECDSA algorithm names
accept any `EllipticCurvePublicKey` and the RSA ones any `RSAPublicKey`. -/
def pyjwt_key_compatible (alg : String) (kt : KeyType) : Bool :=
  if alg = "ES256" ∨ alg = "ES384" ∨ alg = "ES512" then kt == .ec
  else if alg = "RS256" ∨ alg = "RS384" ∨ alg = "RS512"
      ∨ alg = "PS256" ∨ alg = "PS384" ∨ alg = "PS512" then kt == .rsa
  else false

/-- Failure modes of `_decode_and_verify_storekit2_jws` (each raised as a
`ValueError` in the source). -/
inductive DecodeError
  | missingX5c
  | missingAlg
  | chain (e : ChainError)
  | signatureInvalid
deriving Repr, DecidableEq

/-- `_decode_and_verify_storekit2_jws` (`billing_apple.py` lines 118-153):
read `x5c` and `alg` from the unverified header, validate the certificate
chain against the pinned Apple root, then verify the structure's signature
with the leaf's public key and `algorithms=[alg]` — the allowed-algorithms
list is the header-declared algorithm itself.  The signature step succeeds
exactly when PyJWT accepts the (algorithm, key-type) pair and the
structure really was signed by the leaf's key with that algorithm. -/
def decode_and_verify_storekit2_jws (now : Int) (apple_root : Certificate)
    (jws : SK2JWS) : Except DecodeError ApplePayload :=
  match jws.x5c with
  | none => .error .missingX5c
  | some chain =>
    if chain.isEmpty then .error .missingX5c
    else
      match jws.alg with
      | none => .error .missingAlg
      | some alg =>
        if alg = "" then .error .missingAlg
        else
          match verify_x5c_chain now chain apple_root with
          | .error e => .error (.chain e)
          | .ok leaf =>
              if pyjwt_key_compatible alg leaf.keyType
                  && jws.sigKeyId == leaf.keyId && jws.sigAlg == alg then
                .ok jws.payload
              else .error .signatureInvalid

/-- The JWS signature algorithms Apple's StoreKit2 / App Store Server API
actually emit and advertise for signed transactions: ES256 only. -/
def apple_supported_algs : List String := ["ES256"]

/-! ### The HTTP endpoints around the cores -/

/-- Outcome of an endpoint call: a normal JSON response together with the
committed state, or a raised `HTTPException`. -/
inductive EndpointResult
  | ok (resp : VerifyResponse) (st : VerifyState)
  | httpError (code : Nat)
deriving Repr, DecidableEq

/-- The Google vendor interaction as seen by the endpoint: the
`requests.get` call either raises (network error / timeout) or yields a
status code and decoded JSON body. -/
inductive GoogleVendorResult
  | unreachable
  | response (status : Nat) (payload : GoogleSubPayload)
deriving Repr, DecidableEq

/-- `POST /api/billing/verify` (`billing.py` lines 157-310): a blank
purchase token is a 400; a raised vendor request error is caught by the
outer handler and re-raised as a 502; a non-200 vendor status is a 502;
only a 200 response reaches the parse/upsert/reconcile core. -/
def verify_purchase_endpoint (now : Int) (uid : Nat) (token : String)
    (vendor : GoogleVendorResult) (st : VerifyState) : EndpointResult :=
  if token = "" then .httpError 400
  else
    match vendor with
    | .unreachable => .httpError 502
    | .response status payload =>
        if status ≠ 200 then .httpError 502
        else
          let r := verify_purchase_core now uid payload token st
          .ok r.1 r.2

/-- The `receiptData` of an Apple verify request, as the endpoint
classifies it: blank, not of three-dot-separated JWS shape, or a JWS. -/
inductive AppleReceipt
  | blank
  | notJws
  | jws (j : SK2JWS)
deriving Repr, DecidableEq

/-- `POST /api/billing/apple/verify` (`billing_apple.py` lines 202-302):
blank receipt or product id is a 400; a non-JWS receipt and any decode or
verification failure are denials `{is_premium: false, premium_until: null}`
with the state untouched; a decoded payload reaches the core. -/
def verify_apple_endpoint (now : Int) (apple_root : Certificate) (uid : Nat)
    (product_id : String) (reqTx : Option String) (receipt : AppleReceipt)
    (st : VerifyState) : EndpointResult :=
  if receipt = .blank ∨ product_id = "" then .httpError 400
  else
    match receipt with
    | .blank => .httpError 400
    | .notJws => .ok ⟨false, none⟩ st
    | .jws j =>
        match decode_and_verify_storekit2_jws now apple_root j with
        | .error _ => .ok ⟨false, none⟩ st
        | .ok payload =>
            let r := verify_apple_core now uid product_id reqTx payload st
            .ok r.1 r.2

/-! ### Session refresh rotation (`auth.py` lines 234-281) -/

/-- `UserSarbazSession` row (`models.py` lines 122-142): owner, one-way
hash of the refresh token, expiry, nullable revocation time. -/
structure SessionRow where
  user_id : Nat
  refresh_token_hash : String
  expires_at : Int
  revoked_at : Option Int
deriving Repr, DecidableEq

/-- The fields of `UserSarbaz` the refresh endpoint reads. -/
structure AuthUser where
  id : Nat
  firebase_uid : String
deriving Repr, DecidableEq

/-- `REFRESH_EXPIRE_DAYS = 30` (`auth.py` line 43), on the integer time
axis. -/
def REFRESH_EXPIRE_SECONDS : Int := 30 * 86400

/-- `refresh_expiry` (`auth.py` lines 67-68). -/
def refresh_expiry (now : Int) : Int := now + REFRESH_EXPIRE_SECONDS

/-- Mark the first session row with this token hash revoked
(`session.revoked_at = datetime.utcnow()`, `auth.py` line 263). -/
def markRevoked (db : List SessionRow) (tokenHash : String) (now : Int) :
    List SessionRow :=
  match db with
  | [] => []
  | s :: rest =>
      if s.refresh_token_hash == tokenHash then
        { s with revoked_at := some now } :: rest
      else s :: markRevoked rest tokenHash now

/-- Outcome of `POST /api/auth/refresh`: an `HTTPException` with its
detail string, or success with the new session table (the fresh access
and refresh tokens are returned to the client and the new row is the
appended one). -/
inductive RefreshOutcome
  | httpError (code : Nat) (detail : String)
  | ok (db : List SessionRow)
deriving Repr, DecidableEq

/-- `refresh_token` endpoint (`auth.py` lines 234-281), with the one-way
hash `h` and the freshly generated refresh token `newRaw` passed in
explicitly: hash the presented token, find its session row, reject when
absent / already revoked / expired / the owner is gone; on success revoke
the found row and append a brand-new row for `newRaw` expiring 30 days
out. -/
def refresh_endpoint (h : String → String) (now : Int) (raw : String)
    (newRaw : String) (users : List AuthUser) (db : List SessionRow) :
    RefreshOutcome :=
  if raw = "" then .httpError 400 "refresh_token required"
  else
    let token_hash := h raw
    match db.find? (fun s => s.refresh_token_hash == token_hash) with
    | none => .httpError 401 "Invalid refresh token"
    | some s =>
        if s.revoked_at ≠ none then .httpError 401 "Refresh revoked"
        else if s.expires_at < now then .httpError 401 "Refresh expired"
        else
          match users.find? (fun u => u.id == s.user_id) with
          | none => .httpError 404 "User not found"
          | some _ =>
              .ok (markRevoked db token_hash now ++
                [{ user_id := s.user_id, refresh_token_hash := h newRaw,
                   expires_at := refresh_expiry now, revoked_at := none }])

/-! ### Background re-sync sweep (`billing_sync_cron.py`) -/

/-- The `timeout=` argument of each outbound vendor `requests.get`, as
written: the interactive verify endpoint passes `timeout=10`
(`billing.py` lines 89-93 and 199-203), the sweep's call passes none at
all (`billing_sync_cron.py` line 57). -/
def billing_verify_request_timeout : Option Nat := some 10

/-- See `billing_verify_request_timeout`: the sweep's `requests.get` has
no `timeout=` argument. -/
def sync_request_timeout : Option Nat := none

/-- A completed vendor HTTP response to the sweep's verification call
(a transport error instead raises out of `verify_purchase_google`
uncaught, aborting the sweep before any commit). -/
inductive CronVendorResponse
  | response (status : Nat) (expiryTimeMillis : Int)
deriving Repr, DecidableEq

/-- `verify_purchase_google` (`billing_sync_cron.py` lines 43-65): any
non-200 status is returned as `None` — the value the docstring reserves
for "the subscription is no longer active"; a 200 yields the expiry. -/
def verify_purchase_google_cron (v : CronVendorResponse) : Option Int :=
  match v with
  | .response status ms => if status ≠ 200 then none else some ms

/-- The per-purchase row update of `sync_premium_once`
(`billing_sync_cron.py` lines 92-97): a missing or past expiry marks the
row inactive; a future one updates it and keeps it active. -/
def cron_update_purchase (now : Int) (expiry : Option Int) (p : AppPurchase) :
    AppPurchase :=
  match expiry with
  | none => { p with is_active := false, expires_at := none }
  | some e =>
      if e ≤ now then { p with is_active := false, expires_at := some e }
      else { p with expires_at := some e, is_active := true }

/-- The per-purchase user update of `sync_premium_once`
(`billing_sync_cron.py` lines 104-119), given the already-updated row and
ledger: an active row can only raise `premium_until`; an inactive one
clears it only when no other active unexpired row remains. -/
def cron_update_user (now : Int) (p : AppPurchase) (expiry : Option Int)
    (premium_until : Option Int) (db : List AppPurchase) : Option Int :=
  if p.is_active then
    match expiry, premium_until with
    | some e, none => some e
    | some e, some c => if e > c then some e else some c
    | none, c => c
  else
    if (activeRows db p.user_id now).isEmpty then none else premium_until

/-! ### Profile endpoint premium block (`profile.py` lines 14-40) -/

/-- `GET /api/profile` (`profile.py` lines 27-40): first null out an
already-elapsed `premium_until` ("fast premium sync"), then report the
derived `is_premium` flag together with the (possibly nulled) value. -/
def get_profile_premium (now : Int) (premium_until : Option Int) :
    Bool × Option Int :=
  let pu :=
    match premium_until with
    | some t => if t ≤ now then none else some t
    | none => none
  (is_premium_of pu now, pu)

/-! ### Spec-worded reconciliation (for comparison against the code) -/

/-- Spec §4.4, entitled case: "set `premium_until = max(current cached
value, new expiry)`". -/
def spec_max_with_cached (cached : Option Int) (newExpiry : Int) : Option Int :=
  match cached with
  | none => some newExpiry
  | some c => some (max c newExpiry)

/-- Spec §4.4, not-entitled case: "the latest `expires_at` among this
user's rows that are still `is_active AND expires_at > now`, or `null` if
none qualify" — written as a direct recursion over the rows, independent
of the code's query-plus-fold shape. -/
def spec_latest_active (uid : Nat) (now : Int) : List AppPurchase → Option Int
  | [] => none
  | r :: rest =>
    let tail := spec_latest_active uid now rest
    match r.expires_at with
    | some e =>
        if r.user_id = uid ∧ r.is_active = true ∧ now < e then
          match tail with
          | none => some e
          | some m => some (max e m)
        else tail
    | none => tail

/-! ### Row counting (for the uniqueness invariant) -/

/-- Number of ledger rows carrying a given purchase token. -/
def countToken (db : List AppPurchase) (token : String) : Nat :=
  (db.filter (fun p => p.purchase_token == token)).length

/-- Number of ledger rows carrying a given (vendor, purchase token)
pair. -/
def countVendorToken (db : List AppPurchase) (store token : String) : Nat :=
  (db.filter (fun p => p.store == store && p.purchase_token == token)).length

/-! ### Helper lemmas -/

/-- Maximum on nullable timestamps, the shape of both the reconciliation
fold and SQL `MAX`. -/
def omax : Option Int → Option Int → Option Int
  | none, b => b
  | some a, none => some a
  | some a, some b => some (max a b)

theorem omax_none_right (a : Option Int) : omax a none = a := by
  cases a <;> rfl

theorem omax_assoc (a b c : Option Int) :
    omax (omax a b) c = omax a (omax b c) := by
  cases a <;> cases b <;> cases c <;> simp [omax, max_assoc]

theorem foldl_omax_acc (l : List AppPurchase) (acc : Option Int) :
    l.foldl (fun a p => omax a p.expires_at) acc
      = omax acc (l.foldl (fun a p => omax a p.expires_at) none) := by
  induction l generalizing acc with
  | nil => simp [List.foldl, omax_none_right]
  | cons p rest ih =>
      simp only [List.foldl]
      rw [ih (omax acc p.expires_at), ih (omax none p.expires_at)]
      rw [show omax none p.expires_at = p.expires_at from rfl]
      exact omax_assoc acc p.expires_at _

theorem latestActiveExpiry_eq_fold (db : List AppPurchase) (uid : Nat) (now : Int) :
    latestActiveExpiry db uid now
      = (activeRows db uid now).foldl (fun a p => omax a p.expires_at) none := by
  unfold latestActiveExpiry
  congr 1
  funext acc p
  cases acc <;> cases p.expires_at <;> rfl

theorem activeRows_cons (p : AppPurchase) (rest : List AppPurchase)
    (uid : Nat) (now : Int) :
    activeRows (p :: rest) uid now =
      if (p.user_id == uid && p.is_active &&
          (match p.expires_at with
           | some e => e > now
           | none => false)) = true
      then p :: activeRows rest uid now
      else activeRows rest uid now := by
  simp [activeRows, List.filter_cons]

theorem latestActive_eq_spec (uid : Nat) (now : Int) (db : List AppPurchase) :
    latestActiveExpiry db uid now = spec_latest_active uid now db := by
  induction db with
  | nil => rfl
  | cons p rest ih =>
    rw [latestActiveExpiry_eq_fold] at ih ⊢
    rw [activeRows_cons]
    by_cases hq : (p.user_id == uid && p.is_active &&
        (match p.expires_at with
         | some e => e > now
         | none => false)) = true
    · rw [if_pos hq]
      simp only [List.foldl]
      rw [foldl_omax_acc, show omax none p.expires_at = p.expires_at from rfl, ih]
      cases hpe : p.expires_at with
      | none => rw [hpe] at hq; simp at hq
      | some e =>
          rw [hpe] at hq
          simp only [Bool.and_eq_true, beq_iff_eq, decide_eq_true_eq] at hq
          obtain ⟨⟨h1, h2⟩, h3⟩ := hq
          simp only [spec_latest_active, hpe]
          rw [if_pos ⟨h1, h2, h3⟩]
          cases spec_latest_active uid now rest <;> rfl
    · rw [if_neg hq, ih]
      cases hpe : p.expires_at with
      | none => simp [spec_latest_active, hpe]
      | some e =>
          rw [hpe] at hq
          simp only [Bool.and_eq_true, beq_iff_eq, decide_eq_true_eq] at hq
          simp only [spec_latest_active, hpe]
          rw [if_neg (by tauto)]

theorem spec_latest_active_ge (uid : Nat) (now : Int) (db : List AppPurchase)
    (r : AppPurchase) (e : Int) (hmem : r ∈ db) (hu : r.user_id = uid)
    (ha : r.is_active = true) (he : r.expires_at = some e) (hgt : now < e) :
    ∃ m, spec_latest_active uid now db = some m ∧ e ≤ m := by
  induction db with
  | nil => cases hmem
  | cons p rest ih =>
    rcases List.mem_cons.mp hmem with rfl | hmem'
    · simp only [spec_latest_active, he]
      rw [if_pos ⟨hu, ha, hgt⟩]
      cases spec_latest_active uid now rest with
      | none => exact ⟨e, rfl, le_refl e⟩
      | some m => exact ⟨max e m, rfl, le_max_left e m⟩
    · obtain ⟨m, hm, hem⟩ := ih hmem'
      cases hpe : p.expires_at with
      | none => exact ⟨m, by simpa [spec_latest_active, hpe] using hm, hem⟩
      | some e' =>
          by_cases hc : p.user_id = uid ∧ p.is_active = true ∧ now < e'
          · refine ⟨max e' m, ?_, le_trans hem (le_max_right e' m)⟩
            simp only [spec_latest_active, hpe]
            rw [if_pos hc, hm]
          · refine ⟨m, ?_, hem⟩
            simp only [spec_latest_active, hpe]
            rw [if_neg hc]
            exact hm

theorem mem_updateFirst (db : List AppPurchase) (token : String)
    (f : AppPurchase → AppPurchase) (r : AppPurchase) (hr : r ∈ db)
    (hne : r.purchase_token ≠ token) : r ∈ updateFirst db token f := by
  induction db with
  | nil => cases hr
  | cons p rest ih =>
    rcases List.mem_cons.mp hr with rfl | hr'
    · have : (r.purchase_token == token) = false := by
        simpa using hne
      simp [updateFirst, this]
    · by_cases hp : (p.purchase_token == token) = true
      · simp [updateFirst, hp, List.mem_cons, hr']
      · simp only [updateFirst]
        rw [if_neg hp]
        exact List.mem_cons.mpr (Or.inr (ih hr'))

theorem updateFirst_append_not_found (db l : List AppPurchase) (token : String)
    (f : AppPurchase → AppPurchase) (h : findByToken db token = none) :
    updateFirst (db ++ l) token f = db ++ updateFirst l token f := by
  induction db with
  | nil => rfl
  | cons p rest ih =>
    unfold findByToken at h
    rw [List.find?_cons] at h
    by_cases hp : (p.purchase_token == token) = true
    · rw [hp] at h; cases h
    · rw [Bool.not_eq_true] at hp
      rw [hp] at h
      have h' : findByToken rest token = none := h
      simp [updateFirst, hp, ih h']

theorem findByToken_updateFirst (db : List AppPurchase) (token : String)
    (f : AppPurchase → AppPurchase)
    (hf : ∀ x, (f x).purchase_token = x.purchase_token) (gp : AppPurchase)
    (h : findByToken db token = some gp) :
    findByToken (updateFirst db token f) token = some (f gp) := by
  induction db with
  | nil => cases h
  | cons p rest ih =>
    unfold findByToken at h ⊢
    rw [List.find?_cons] at h
    by_cases hp : (p.purchase_token == token) = true
    · rw [hp] at h
      have hpg : p = gp := Option.some.inj h
      subst hpg
      have hfp : ((f p).purchase_token == token) = true := by
        rw [hf p]; exact hp
      simp [updateFirst, hp, List.find?_cons, hfp]
    · rw [Bool.not_eq_true] at hp
      rw [hp] at h
      have h' : List.find? (fun s => s.purchase_token == token) rest = some gp := h
      have := ih h'
      unfold findByToken at this
      simp [updateFirst, hp, List.find?_cons, this]

theorem updateFirst_updateFirst (db : List AppPurchase) (token : String)
    (f g : AppPurchase → AppPurchase)
    (hf : ∀ x, (f x).purchase_token = x.purchase_token)
    (hgf : ∀ x, g (f x) = f x) :
    updateFirst (updateFirst db token f) token g = updateFirst db token f := by
  induction db with
  | nil => rfl
  | cons p rest ih =>
    by_cases hp : (p.purchase_token == token) = true
    · have hfp : ((f p).purchase_token == token) = true := by
        rw [hf p]; exact hp
      simp [updateFirst, hp, hfp, hgf p]
    · rw [Bool.not_eq_true] at hp
      simp [updateFirst, hp, ih]

theorem findByToken_none_filter (db : List AppPurchase) (token : String)
    (h : findByToken db token = none) :
    db.filter (fun p => p.purchase_token == token) = [] := by
  induction db with
  | nil => rfl
  | cons p rest ih =>
    unfold findByToken at h
    rw [List.find?_cons] at h
    by_cases hp : (p.purchase_token == token) = true
    · rw [hp] at h; cases h
    · rw [Bool.not_eq_true] at hp
      rw [hp] at h
      have h' : findByToken rest token = none := h
      rw [List.filter_cons, hp]
      simpa using ih h'

theorem countToken_updateFirst (db : List AppPurchase) (token t' : String)
    (f : AppPurchase → AppPurchase)
    (hf : ∀ x, (f x).purchase_token = x.purchase_token) :
    countToken (updateFirst db token f) t' = countToken db t' := by
  induction db with
  | nil => rfl
  | cons p rest ih =>
    by_cases hp : (p.purchase_token == token) = true
    · simp only [countToken, updateFirst, hp, if_pos, List.filter_cons, hf p]
      cases hpt : (p.purchase_token == t') <;> simp
    · rw [Bool.not_eq_true] at hp
      simp only [countToken, updateFirst, hp, Bool.false_eq_true, if_false,
        List.filter_cons]
      cases hpt : (p.purchase_token == t') <;>
        simp only [countToken] at ih <;> simp [ih]

theorem findByToken_append_single (db : List AppPurchase) (x : AppPurchase)
    (token : String) (hx : x.purchase_token = token)
    (h : findByToken db token = none) :
    findByToken (db ++ [x]) token = some x := by
  unfold findByToken at h ⊢
  rw [List.find?_append, h]
  simp [hx]

theorem googleRowUpdate_token (me : Option Int) (pid : Option String)
    (act : Bool) (x : AppPurchase) :
    (googleRowUpdate me pid act x).purchase_token = x.purchase_token := rfl

theorem appleRowUpdate_token (pid : String) (e : Int) (act : Bool)
    (x : AppPurchase) :
    (appleRowUpdate pid e act x).purchase_token = x.purchase_token := rfl

theorem googleUpsert_idem (db : List AppPurchase) (uid : Nat) (now : Int)
    (token : String) (me : Option Int) (pid : Option String) (act : Bool) :
    googleUpsert (googleUpsert db uid now token me pid act) uid now token me pid act
      = googleUpsert db uid now token me pid act := by
  cases hfind : findByToken db token with
  | none =>
      have hnew : findByToken (db ++ [googleNewRow uid now token me pid act]) token
          = some (googleNewRow uid now token me pid act) :=
        findByToken_append_single db _ token rfl hfind
      unfold googleUpsert
      simp only [hfind, hnew]
      rw [updateFirst_append_not_found db _ token _ hfind]
      simp [updateFirst, googleNewRow, googleRowUpdate]
  | some gp =>
      have hstep := findByToken_updateFirst db token
        (googleRowUpdate me pid act) (googleRowUpdate_token me pid act) gp hfind
      unfold googleUpsert
      simp only [hfind, hstep]
      exact updateFirst_updateFirst db token _ _ (googleRowUpdate_token me pid act)
        (fun _ => rfl)

theorem appleUpsert_idem (db : List AppPurchase) (uid : Nat) (now : Int)
    (token : String) (pid : String) (e : Int) (act : Bool) :
    appleUpsert (appleUpsert db uid now token pid e act) uid now token pid e act
      = appleUpsert db uid now token pid e act := by
  cases hfind : findByToken db token with
  | none =>
      have hnew : findByToken (db ++ [appleNewRow uid now token pid e act]) token
          = some (appleNewRow uid now token pid e act) :=
        findByToken_append_single db _ token rfl hfind
      unfold appleUpsert
      simp only [hfind, hnew]
      rw [updateFirst_append_not_found db _ token _ hfind]
      simp [updateFirst, appleNewRow, appleRowUpdate]
  | some ap =>
      have hstep := findByToken_updateFirst db token
        (appleRowUpdate pid e act) (appleRowUpdate_token pid e act) ap hfind
      unfold appleUpsert
      simp only [hfind, hstep]
      exact updateFirst_updateFirst db token _ _ (appleRowUpdate_token pid e act)
        (fun _ => rfl)

theorem countToken_pos_of_find (db : List AppPurchase) (token : String)
    (gp : AppPurchase) (hfind : findByToken db token = some gp) :
    countToken db token ≠ 0 := by
  unfold countToken
  unfold findByToken at hfind
  intro hc
  have hmem := List.mem_of_find?_eq_some hfind
  have hgp : (gp.purchase_token == token) = true := by
    simpa using List.find?_some hfind
  have hin : gp ∈ db.filter (fun p => p.purchase_token == token) :=
    List.mem_filter.mpr ⟨hmem, hgp⟩
  rw [List.length_eq_zero] at hc
  rw [hc] at hin
  cases hin

theorem countToken_googleUpsert (db : List AppPurchase) (uid : Nat) (now : Int)
    (token : String) (me : Option Int) (pid : Option String) (act : Bool) :
    countToken (googleUpsert db uid now token me pid act) token
      = if countToken db token = 0 then 1 else countToken db token := by
  cases hfind : findByToken db token with
  | none =>
      have h0 : countToken db token = 0 := by
        unfold countToken
        rw [findByToken_none_filter db token hfind]
        rfl
      unfold googleUpsert
      simp only [hfind, h0, if_pos]
      unfold countToken
      rw [List.filter_append, findByToken_none_filter db token hfind]
      simp [googleNewRow]
  | some gp =>
      unfold googleUpsert
      simp only [hfind]
      rw [countToken_updateFirst db token token _ (googleRowUpdate_token me pid act)]
      rw [if_neg (countToken_pos_of_find db token gp hfind)]

theorem countToken_appleUpsert (db : List AppPurchase) (uid : Nat) (now : Int)
    (token : String) (pid : String) (e : Int) (act : Bool) :
    countToken (appleUpsert db uid now token pid e act) token
      = if countToken db token = 0 then 1 else countToken db token := by
  cases hfind : findByToken db token with
  | none =>
      have h0 : countToken db token = 0 := by
        unfold countToken
        rw [findByToken_none_filter db token hfind]
        rfl
      unfold appleUpsert
      simp only [hfind, h0, if_pos]
      unfold countToken
      rw [List.filter_append, findByToken_none_filter db token hfind]
      simp [appleNewRow]
  | some ap =>
      unfold appleUpsert
      simp only [hfind]
      rw [countToken_updateFirst db token token _ (appleRowUpdate_token pid e act)]
      rw [if_neg (countToken_pos_of_find db token ap hfind)]

theorem countVendorToken_le_countToken (db : List AppPurchase)
    (store token : String) :
    countVendorToken db store token ≤ countToken db token := by
  unfold countVendorToken countToken
  induction db with
  | nil => exact Nat.le_refl 0
  | cons p rest ih =>
      rw [List.filter_cons, List.filter_cons]
      cases hs : (p.store == store) <;> cases ht : (p.purchase_token == token) <;>
        simp [hs, ht] <;> omega

theorem find?_markRevoked_same (db : List SessionRow) (H : String) (now : Int)
    (s : SessionRow)
    (hfind : db.find? (fun x => x.refresh_token_hash == H) = some s) :
    (markRevoked db H now).find? (fun x => x.refresh_token_hash == H)
      = some { s with revoked_at := some now } := by
  induction db with
  | nil => cases hfind
  | cons p rest ih =>
    rw [List.find?_cons] at hfind
    by_cases hp : (p.refresh_token_hash == H) = true
    · rw [hp] at hfind
      have hps : p = s := Option.some.inj hfind
      subst hps
      simp [markRevoked, hp, List.find?_cons]
    · rw [Bool.not_eq_true] at hp
      rw [hp] at hfind
      simp only [markRevoked, hp, Bool.false_eq_true, if_false]
      rw [List.find?_cons, hp]
      exact ih hfind

theorem markRevoked_hash_mem (db : List SessionRow) (H : String) (now : Int)
    (x : SessionRow) (hx : x ∈ markRevoked db H now) :
    ∃ y ∈ db, x.refresh_token_hash = y.refresh_token_hash := by
  induction db with
  | nil => cases hx
  | cons p rest ih =>
    by_cases hp : (p.refresh_token_hash == H) = true
    · simp only [markRevoked, hp, if_pos] at hx
      rcases List.mem_cons.mp hx with rfl | hx'
      · exact ⟨p, List.mem_cons_self p rest, rfl⟩
      · exact ⟨x, List.mem_cons.mpr (Or.inr hx'), rfl⟩
    · rw [Bool.not_eq_true] at hp
      simp only [markRevoked, hp, Bool.false_eq_true, if_false] at hx
      rcases List.mem_cons.mp hx with rfl | hx'
      · exact ⟨x, List.mem_cons_self x rest, rfl⟩
      · obtain ⟨y, hy, hxy⟩ := ih hx'
        exact ⟨y, List.mem_cons.mpr (Or.inr hy), hxy⟩

theorem find?_markRevoked_none (db : List SessionRow) (H H' : String) (now : Int)
    (hfresh : ∀ x ∈ db, x.refresh_token_hash ≠ H') :
    (markRevoked db H now).find? (fun x => x.refresh_token_hash == H') = none := by
  rw [List.find?_eq_none]
  intro x hx
  obtain ⟨y, hy, hxy⟩ := markRevoked_hash_mem db H now x hx
  simp only [beq_iff_eq]
  rw [hxy]
  exact hfresh y hy

theorem markRevoked_append_no_match (l₁ l₂ : List SessionRow) (H : String)
    (now : Int) (h : ∀ x ∈ l₁, x.refresh_token_hash ≠ H) :
    markRevoked (l₁ ++ l₂) H now = l₁ ++ markRevoked l₂ H now := by
  induction l₁ with
  | nil => rfl
  | cons p rest ih =>
    have hp : (p.refresh_token_hash == H) = false := by
      simpa using h p (List.mem_cons_self p rest)
    simp only [List.cons_append, markRevoked, hp, Bool.false_eq_true, if_false]
    exact congrArg (List.cons p) (ih (fun x hx => h x (List.mem_cons.mpr (Or.inr hx))))

theorem refresh_endpoint_eq (h : String → String) (now : Int)
    (raw newRaw : String) (users : List AuthUser) (db : List SessionRow)
    (hraw : raw ≠ "") :
    refresh_endpoint h now raw newRaw users db =
      match db.find? (fun s => s.refresh_token_hash == h raw) with
      | none => .httpError 401 "Invalid refresh token"
      | some s =>
          if s.revoked_at ≠ none then .httpError 401 "Refresh revoked"
          else if s.expires_at < now then .httpError 401 "Refresh expired"
          else
            match users.find? (fun u => u.id == s.user_id) with
            | none => .httpError 404 "User not found"
            | some _ =>
                .ok (markRevoked db (h raw) now ++
                  [{ user_id := s.user_id, refresh_token_hash := h newRaw,
                     expires_at := refresh_expiry now, revoked_at := none }]) := by
  unfold refresh_endpoint
  rw [if_neg hraw]

/-- C4: after a successful refresh that consumed token `R` and issued
token `R1`, a later refresh presenting `R` fails with "Refresh revoked"
(its session row is revoked); presenting `R1` succeeds exactly once —
the first attempt rotates again, and every attempt after that fails with
"Refresh revoked". -/
theorem C4_refresh_rotation
    (h : String → String) (now₁ now₂ : Int) (R R1 R2 : String)
    (users : List AuthUser) (db : List SessionRow) (s : SessionRow) (u : AuthUser)
    (hR : R ≠ "") (hR1 : R1 ≠ "")
    (hfind : db.find? (fun x => x.refresh_token_hash == h R) = some s)
    (hrev : s.revoked_at = none)
    (hexp1 : ¬ s.expires_at < now₁)
    (huser : users.find? (fun x => x.id == s.user_id) = some u)
    (hfresh : ∀ x ∈ db, x.refresh_token_hash ≠ h R1)
    (hexp2 : ¬ refresh_expiry now₁ < now₂) :
    refresh_endpoint h now₁ R R1 users db
      = .ok (markRevoked db (h R) now₁ ++
          [⟨s.user_id, h R1, refresh_expiry now₁, none⟩])
    ∧ (∀ (now' : Int) (newRaw : String),
        refresh_endpoint h now' R newRaw users
            (markRevoked db (h R) now₁ ++
              [⟨s.user_id, h R1, refresh_expiry now₁, none⟩])
          = .httpError 401 "Refresh revoked")
    ∧ refresh_endpoint h now₂ R1 R2 users
          (markRevoked db (h R) now₁ ++
            [⟨s.user_id, h R1, refresh_expiry now₁, none⟩])
        = .ok (markRevoked (markRevoked db (h R) now₁ ++
              [⟨s.user_id, h R1, refresh_expiry now₁, none⟩]) (h R1) now₂ ++
            [⟨s.user_id, h R2, refresh_expiry now₂, none⟩])
    ∧ (∀ (now' : Int) (newRaw : String),
        refresh_endpoint h now' R1 newRaw users
            (markRevoked (markRevoked db (h R) now₁ ++
                [⟨s.user_id, h R1, refresh_expiry now₁, none⟩]) (h R1) now₂ ++
              [⟨s.user_id, h R2, refresh_expiry now₂, none⟩])
          = .httpError 401 "Refresh revoked") := by
  have hmark1 : (markRevoked db (h R) now₁).find?
      (fun x => x.refresh_token_hash == h R)
      = some { s with revoked_at := some now₁ } :=
    find?_markRevoked_same db (h R) now₁ s hfind
  have hmarkfresh : (markRevoked db (h R) now₁).find?
      (fun x => x.refresh_token_hash == h R1) = none :=
    find?_markRevoked_none db (h R) (h R1) now₁ hfresh
  have hmdbfresh : ∀ x ∈ markRevoked db (h R) now₁, x.refresh_token_hash ≠ h R1 := by
    intro x hx
    obtain ⟨y, hy, hxy⟩ := markRevoked_hash_mem db (h R) now₁ x hx
    rw [hxy]
    exact hfresh y hy
  refine ⟨?_, ?_, ?_, ?_⟩
  · rw [refresh_endpoint_eq h now₁ R R1 users db hR]
    simp only [hfind]
    rw [if_neg (by simp [hrev]), if_neg hexp1]
    simp [huser]
  · intro now' newRaw
    rw [refresh_endpoint_eq h now' R newRaw users _ hR]
    simp only [List.find?_append, hmark1]
    simp
  · rw [refresh_endpoint_eq h now₂ R1 R2 users _ hR1]
    simp only [List.find?_append, hmarkfresh]
    simp [hexp2, huser]
  · intro now' newRaw
    have hsplit : markRevoked (markRevoked db (h R) now₁ ++
          [⟨s.user_id, h R1, refresh_expiry now₁, none⟩]) (h R1) now₂
        = markRevoked db (h R) now₁ ++
          [⟨s.user_id, h R1, refresh_expiry now₁, some now₂⟩] := by
      rw [markRevoked_append_no_match _ _ _ _ hmdbfresh]
      simp [markRevoked]
    rw [hsplit]
    rw [refresh_endpoint_eq h now' R1 newRaw users _ hR1]
    rw [List.append_assoc]
    simp only [List.find?_append, hmarkfresh]
    simp

/-- Witness for C4 at a concrete one-session table: the consumed token
`"r1"` is rejected as revoked after its successful rotation. -/
theorem C4_refresh_rotation_witness :
    refresh_endpoint (fun t => t) 7 "r1" "zz" [⟨1, "u1"⟩]
        (markRevoked [⟨1, "r1", 100, none⟩] "r1" 0 ++
          [⟨1, "r2", refresh_expiry 0, none⟩])
      = .httpError 401 "Refresh revoked" :=
  (C4_refresh_rotation (fun t => t) 0 5 "r1" "r2" "r3" [⟨1, "u1"⟩]
      [⟨1, "r1", 100, none⟩] ⟨1, "r1", 100, none⟩ ⟨1, "u1"⟩
      (by decide) (by decide) rfl rfl (by decide) rfl
      (by intro x hx
          rcases List.mem_singleton.mp hx with rfl
          decide)
      (by decide)).2.1 7 "zz"

/-- C6: the certificate-chain validation fails with the chain-too-short
error whenever fewer than two certificates are supplied; and a decoded
signed structure whose intermediate certificate is not signed by the
pinned root is rejected with a signature error, even when all validity
windows hold, the leaf is correctly signed by the intermediate, and the
structure's own signature verifies against the leaf. -/
theorem C6_chain_validation :
    (∀ (now : Int) (x5c : List Certificate) (root : Certificate),
        x5c.length < 2 →
        verify_x5c_chain now x5c root = .error .chainTooShort)
    ∧ (∀ (now : Int) (root leaf intermediate : Certificate)
        (rest : List Certificate) (jws : SK2JWS) (alg : String),
        jws.x5c = some (leaf :: intermediate :: rest) →
        leaf.not_valid_before ≤ now → now ≤ leaf.not_valid_after →
        intermediate.not_valid_before ≤ now → now ≤ intermediate.not_valid_after →
        root.not_valid_before ≤ now → now ≤ root.not_valid_after →
        intermediate.keyType ≠ .other → root.keyType ≠ .other →
        leaf.signerKeyId = intermediate.keyId →
        intermediate.signerKeyId ≠ root.keyId →
        jws.alg = some alg → alg ≠ "" →
        pyjwt_key_compatible alg leaf.keyType = true →
        jws.sigKeyId = leaf.keyId → jws.sigAlg = alg →
        decode_and_verify_storekit2_jws now root jws
          = .error (.chain .signatureMismatch)) := by
  constructor
  · intro now x5c root hlen
    rcases x5c with _ | ⟨a, _ | ⟨b, t⟩⟩
    · rfl
    · rfl
    · simp only [List.length_cons] at hlen
      omega
  · intro now root leaf intermediate rest jws alg hx5c hlnb hlna hinb hina
      hrnb hrna hitype hrtype hlsign hisign halg halgne hcompat hskey hsalg
    have hval : verify_cert_validity now [leaf, intermediate, root] = .ok () := by
      simp only [verify_cert_validity]
      rw [if_neg (by omega), if_neg (by omega), if_neg (by omega),
        if_neg (by omega), if_neg (by omega), if_neg (by omega)]
    have hsig1 : verify_cert_signed_by leaf intermediate = .ok () := by
      unfold verify_cert_signed_by
      cases hkt : intermediate.keyType with
      | rsa => simp [hlsign]
      | ec => simp [hlsign]
      | other => exact absurd hkt hitype
    have hsig2 : verify_cert_signed_by intermediate root
        = .error .signatureMismatch := by
      unfold verify_cert_signed_by
      cases hkt : root.keyType with
      | rsa => simp [beq_iff_eq, hisign]
      | ec => simp [beq_iff_eq, hisign]
      | other => exact absurd hkt hrtype
    have hchain : verify_x5c_chain now (leaf :: intermediate :: rest) root
        = .error .signatureMismatch := by
      simp only [verify_x5c_chain, hval, hsig1, hsig2]
      rfl
    unfold decode_and_verify_storekit2_jws
    simp only [hx5c, halg, List.isEmpty_cons, Bool.false_eq_true, if_false]
    rw [if_neg halgne]
    simp only [hchain]

/-- Witness for C6: a one-certificate chain is too short, and a concrete
EC chain whose intermediate is signed by key 9 instead of the pinned
root's key 1 is rejected with a signature error even though the JWS
itself is validly signed by the leaf. -/
theorem C6_chain_validation_witness :
    verify_x5c_chain 0 [⟨3, .ec, 0, 100, 2⟩] ⟨1, .ec, 0, 100, 1⟩
        = .error .chainTooShort
    ∧ decode_and_verify_storekit2_jws 5 ⟨1, .ec, 0, 100, 1⟩
        ⟨some "ES256", some [⟨3, .ec, 0, 100, 2⟩, ⟨2, .ec, 0, 100, 9⟩],
         ⟨some "kz.sarbazinfo5000.app", some "p1", some 50, some "t1", none⟩,
         3, "ES256"⟩
        = .error (.chain .signatureMismatch) :=
  ⟨C6_chain_validation.1 0 [⟨3, .ec, 0, 100, 2⟩] ⟨1, .ec, 0, 100, 1⟩
      (by decide),
   C6_chain_validation.2 5 ⟨1, .ec, 0, 100, 1⟩ ⟨3, .ec, 0, 100, 2⟩
      ⟨2, .ec, 0, 100, 9⟩ [] _ "ES256" rfl (by decide) (by decide) (by decide)
      (by decide) (by decide) (by decide) (by decide) (by decide) rfl
      (by decide) rfl (by decide) (by decide) rfl rfl⟩

/-- C2: the claim that a JWS declaring a non-vendor-supported algorithm
is always rejected fails on the code: `jwt.decode` is called with
`algorithms=[alg]` taken from the untrusted header, so a structure
declaring `ES384` — not in Apple's supported set — and carrying a valid
ES384 signature by the leaf key is accepted. -/
theorem C2_algorithm_pinning_code_bug :
    decode_and_verify_storekit2_jws 5 ⟨1, .ec, 0, 100, 1⟩
        ⟨some "ES384", some [⟨3, .ec, 0, 100, 2⟩, ⟨2, .ec, 0, 100, 1⟩],
         ⟨some "kz.sarbazinfo5000.app", some "p1", some 50, some "t1", none⟩,
         3, "ES384"⟩
      = .ok ⟨some "kz.sarbazinfo5000.app", some "p1", some 50, some "t1", none⟩
    ∧ "ES384" ∉ apple_supported_algs := by
  constructor
  · rfl
  · decide

/-- C3: the claim that the serving Google verify endpoint maps the
vendor's `subscriptionState` to entitlement fails on the code: for a
`SUBSCRIPTION_STATE_PAUSED` response with a future expiry the endpoint
reports premium, while the state mapping (implemented by the uncalled
`verify_google_subscription_v2` helper in the same file, and required by
the spec) yields not entitled. -/
theorem C3_subscription_state_ignored :
    (verify_purchase_core 10 1
        ⟨"SUBSCRIPTION_STATE_PAUSED", [⟨some 100, some "sarbaz_premium_monthly"⟩]⟩
        "tok" ⟨[], none⟩).1.is_premium = true
    ∧ (verify_google_subscription_v2 10
        ⟨"SUBSCRIPTION_STATE_PAUSED", [⟨some 100, some "sarbaz_premium_monthly"⟩]⟩).1
      = false := by
  constructor
  · rfl
  · rfl

/-- C7 counterexample: a non-success vendor status on the Google verify
endpoint yields a raised 502 error, not a not-premium denial response. -/
theorem C7_google_502_counterexample :
    verify_purchase_endpoint 0 1 "tok" (.response 500 ⟨"", []⟩) ⟨[], none⟩
      = .httpError 502 := rfl

/-- C7 amended: the Apple verify endpoint surfaces upstream verification
failures (non-JWS receipt, any decode/signature/chain failure) as a
not-premium denial with the stored state untouched, but the Google verify
endpoint raises a 502 error whenever the vendor is unreachable or returns
a non-success status. -/
theorem C7_upstream_failures :
    (∀ (now : Int) (uid : Nat) (token : String) (st : VerifyState),
        token ≠ "" →
        verify_purchase_endpoint now uid token .unreachable st = .httpError 502)
    ∧ (∀ (now : Int) (uid : Nat) (token : String) (status : Nat)
        (payload : GoogleSubPayload) (st : VerifyState),
        token ≠ "" → status ≠ 200 →
        verify_purchase_endpoint now uid token (.response status payload) st
          = .httpError 502)
    ∧ (∀ (now : Int) (root : Certificate) (uid : Nat) (pid : String)
        (reqTx : Option String) (st : VerifyState),
        pid ≠ "" →
        verify_apple_endpoint now root uid pid reqTx .notJws st
          = .ok ⟨false, none⟩ st)
    ∧ (∀ (now : Int) (root : Certificate) (uid : Nat) (pid : String)
        (reqTx : Option String) (j : SK2JWS) (e : DecodeError)
        (st : VerifyState),
        pid ≠ "" →
        decode_and_verify_storekit2_jws now root j = .error e →
        verify_apple_endpoint now root uid pid reqTx (.jws j) st
          = .ok ⟨false, none⟩ st) := by
  refine ⟨?_, ?_, ?_, ?_⟩
  · intro now uid token st htok
    unfold verify_purchase_endpoint
    rw [if_neg htok]
  · intro now uid token status payload st htok hstatus
    unfold verify_purchase_endpoint
    rw [if_neg htok]
    simp only [if_pos hstatus]
  · intro now root uid pid reqTx st hpid
    unfold verify_apple_endpoint
    rw [if_neg (by simp [hpid])]
  · intro now root uid pid reqTx j e st hpid hdec
    unfold verify_apple_endpoint
    rw [if_neg (by simp [hpid])]
    simp only [hdec]

/-- Witness for C7 (amended) at concrete inputs: both Google failure
modes return 502, both Apple failure modes return the denial response. -/
theorem C7_upstream_failures_witness :
    verify_purchase_endpoint 0 1 "t" .unreachable ⟨[], none⟩ = .httpError 502
    ∧ verify_purchase_endpoint 0 1 "t" (.response 503 ⟨"", []⟩) ⟨[], none⟩
        = .httpError 502
    ∧ verify_apple_endpoint 0 ⟨1, .ec, 0, 100, 1⟩ 1 "p1" none .notJws ⟨[], none⟩
        = .ok ⟨false, none⟩ ⟨[], none⟩
    ∧ verify_apple_endpoint 0 ⟨1, .ec, 0, 100, 1⟩ 1 "p1" none
        (.jws ⟨some "ES256", none, ⟨none, none, none, none, none⟩, 3, "ES256"⟩)
        ⟨[], none⟩
        = .ok ⟨false, none⟩ ⟨[], none⟩ :=
  ⟨C7_upstream_failures.1 0 1 "t" ⟨[], none⟩ (by decide),
   C7_upstream_failures.2.1 0 1 "t" 503 ⟨"", []⟩ ⟨[], none⟩ (by decide) (by decide),
   C7_upstream_failures.2.2.1 0 ⟨1, .ec, 0, 100, 1⟩ 1 "p1" none ⟨[], none⟩ (by decide),
   C7_upstream_failures.2.2.2 0 ⟨1, .ec, 0, 100, 1⟩ 1 "p1" none
     ⟨some "ES256", none, ⟨none, none, none, none, none⟩, 3, "ES256"⟩
     .missingX5c ⟨[], none⟩ (by decide) rfl⟩

/-- C8: an Apple verify call whose decoded payload's bundle id or product
id does not match the expected values returns the plain denial
`{is_premium: false, premium_until: null}` — no raised error — and
leaves the ledger and the user's cached state exactly as they were. -/
theorem C8_apple_mismatch_silent_deny (now : Int) (root : Certificate)
    (uid : Nat) (pid : String) (reqTx : Option String) (j : SK2JWS)
    (payload : ApplePayload) (st : VerifyState)
    (hdec : decode_and_verify_storekit2_jws now root j = .ok payload)
    (hpid : pid ≠ "")
    (hmis : payload.bundleId ≠ some BUNDLE_ID_EXPECTED
            ∨ payload.productId ≠ some pid) :
    verify_apple_endpoint now root uid pid reqTx (.jws j) st
      = .ok ⟨false, none⟩ st := by
  unfold verify_apple_endpoint
  rw [if_neg (by simp [hpid])]
  simp only [hdec]
  unfold verify_apple_core
  by_cases hb : payload.bundleId = some BUNDLE_ID_EXPECTED
  · rcases hmis with hmis | hmis
    · exact absurd hb hmis
    · rw [if_neg (by simp [hb]), if_pos hmis]
  · rw [if_pos hb]

/-- Witness for C8: a correctly signed payload for a foreign bundle id is
silently denied and the (empty) state is unchanged. -/
theorem C8_apple_mismatch_silent_deny_witness :
    verify_apple_endpoint 5 ⟨1, .ec, 0, 100, 1⟩ 1 "p1" none
        (.jws ⟨some "ES256", some [⟨3, .ec, 0, 100, 2⟩, ⟨2, .ec, 0, 100, 1⟩],
         ⟨some "com.evil.app", some "p1", some 50, some "t1", none⟩, 3, "ES256"⟩)
        ⟨[], some 40⟩
      = .ok ⟨false, none⟩ ⟨[], some 40⟩ :=
  C8_apple_mismatch_silent_deny 5 ⟨1, .ec, 0, 100, 1⟩ 1 "p1" none
    ⟨some "ES256", some [⟨3, .ec, 0, 100, 2⟩, ⟨2, .ec, 0, 100, 1⟩],
     ⟨some "com.evil.app", some "p1", some 50, some "t1", none⟩, 3, "ES256"⟩
    ⟨some "com.evil.app", some "p1", some 50, some "t1", none⟩ ⟨[], some 40⟩
    rfl (by decide) (Or.inl (by decide))

/-- C9 counterexample: the sweep's vendor call is made with no timeout,
and a 500 vendor status makes the sweep mark a still-unexpired active
row inactive — an unreachable/non-success vendor is treated as the
subscription having become inactive. -/
theorem C9_sweep_counterexample :
    sync_request_timeout = none
    ∧ verify_purchase_google_cron (.response 500 123) = none
    ∧ (cron_update_purchase 10 (verify_purchase_google_cron (.response 500 123))
        ⟨"sarbaz", 1, some "p1", "tok", "google", 0, some 100, true⟩).is_active
      = false := ⟨rfl, rfl, rfl⟩

/-- C9 amended: the interactive verify endpoints' vendor calls carry a
10-second timeout, but the sweep's vendor call carries none; the sweep
maps every non-success vendor status to `None` — the "no longer active"
value — so the row is marked inactive, and the user's `premium_until` is
cleared when no other active unexpired row remains. -/
theorem C9_sweep_timeout_and_conflation :
    billing_verify_request_timeout = some 10
    ∧ sync_request_timeout = none
    ∧ (∀ (status : Nat) (ms : Int), status ≠ 200 →
        verify_purchase_google_cron (.response status ms) = none)
    ∧ (∀ (now : Int) (p : AppPurchase),
        (cron_update_purchase now none p).is_active = false)
    ∧ (∀ (now : Int) (p : AppPurchase) (expiry premium : Option Int)
        (db : List AppPurchase),
        p.is_active = false → (activeRows db p.user_id now).isEmpty = true →
        cron_update_user now p expiry premium db = none) := by
  refine ⟨rfl, rfl, ?_, ?_, ?_⟩
  · intro status ms hs
    simp [verify_purchase_google_cron, hs]
  · intro now p
    rfl
  · intro now p expiry premium db hact hemp
    unfold cron_update_user
    rw [if_neg (by simp [hact]), if_pos hemp]

/-- Witness for C9 (amended) at concrete inputs. -/
theorem C9_sweep_timeout_and_conflation_witness :
    verify_purchase_google_cron (.response 429 77) = none
    ∧ (cron_update_purchase 3 none
        ⟨"sarbaz", 1, some "p1", "tok", "google", 0, some 100, true⟩).is_active
      = false
    ∧ cron_update_user 3 ⟨"sarbaz", 1, some "p1", "tok", "google", 0, none, false⟩
        none (some 99) [] = none :=
  ⟨C9_sweep_timeout_and_conflation.2.2.1 429 77 (by decide),
   C9_sweep_timeout_and_conflation.2.2.2.1 3 _,
   C9_sweep_timeout_and_conflation.2.2.2.2 3 _ none (some 99) [] rfl rfl⟩

/-- C10: `is_premium` is a derived predicate, true exactly when
`premium_until` is set and strictly later than now; the Google and Apple
verify responses and the profile endpoint all report an `is_premium` that
is this predicate applied to the very `premium_until` they return (the
verify responses reporting the freshly stored value). -/
theorem C10_is_premium_derived :
    (∀ (premium_until : Option Int) (now : Int),
        is_premium_of premium_until now = true
          ↔ ∃ t, premium_until = some t ∧ now < t)
    ∧ (∀ (now : Int) (uid : Nat) (payload : GoogleSubPayload) (token : String)
        (st : VerifyState),
        (verify_purchase_core now uid payload token st).1.is_premium
          = is_premium_of
              (verify_purchase_core now uid payload token st).1.premium_until now
        ∧ (verify_purchase_core now uid payload token st).1.premium_until
          = (verify_purchase_core now uid payload token st).2.premium_until)
    ∧ (∀ (now : Int) (uid : Nat) (pid : String) (reqTx : Option String)
        (payload : ApplePayload) (st : VerifyState),
        (verify_apple_core now uid pid reqTx payload st).1.is_premium
          = is_premium_of
              (verify_apple_core now uid pid reqTx payload st).1.premium_until now)
    ∧ (∀ (now : Int) (premium_until : Option Int),
        (get_profile_premium now premium_until).1
          = is_premium_of (get_profile_premium now premium_until).2 now) := by
  refine ⟨?_, ?_, ?_, ?_⟩
  · intro premium_until now
    cases premium_until with
    | none => simp [is_premium_of]
    | some t => simp [is_premium_of]
  · intro now uid payload token st
    exact ⟨rfl, rfl⟩
  · intro now uid pid reqTx payload st
    unfold verify_apple_core
    by_cases hb : payload.bundleId ≠ some BUNDLE_ID_EXPECTED
    · simp [hb, is_premium_of]
    · by_cases hp : payload.productId ≠ some pid
      · simp [hb, hp, is_premium_of]
      · cases he : extract_expiry payload.expiresDate with
        | none => simp [hb, hp, he, is_premium_of]
        | some pe =>
            cases ht : extract_purchase_token reqTx payload with
            | none => simp [hb, hp, he, ht, is_premium_of]
            | some tok => simp [hb, hp, he, ht]
  · intro now premium_until
    cases premium_until with
    | none => rfl
    | some t =>
        by_cases h : t ≤ now
        · simp [get_profile_premium, h]
        · simp [get_profile_premium, h]

theorem mem_googleUpsert (db : List AppPurchase) (uid : Nat) (now : Int)
    (token : String) (me : Option Int) (pid : Option String) (act : Bool)
    (r : AppPurchase) (hr : r ∈ db) (hne : r.purchase_token ≠ token) :
    r ∈ googleUpsert db uid now token me pid act := by
  unfold googleUpsert
  cases hfind : findByToken db token with
  | none => exact List.mem_append_left _ hr
  | some gp => exact mem_updateFirst db token _ r hr hne

theorem mem_appleUpsert (db : List AppPurchase) (uid : Nat) (now : Int)
    (token : String) (pid : String) (e : Int) (act : Bool)
    (r : AppPurchase) (hr : r ∈ db) (hne : r.purchase_token ≠ token) :
    r ∈ appleUpsert db uid now token pid e act := by
  unfold appleUpsert
  cases hfind : findByToken db token with
  | none => exact List.mem_append_left _ hr
  | some ap => exact mem_updateFirst db token _ r hr hne

theorem google_core_db (now : Int) (uid : Nat) (payload : GoogleSubPayload)
    (token : String) (st : VerifyState) :
    (verify_purchase_core now uid payload token st).2.db
      = googleUpsert st.db uid now token
          (scanLineItemsDebug payload.lineItems).1
          (scanLineItemsDebug payload.lineItems).2
          (match (scanLineItemsDebug payload.lineItems).1 with
           | some e => e > now
           | none => false) := rfl

theorem google_core_premium_not_entitled (now : Int) (uid : Nat)
    (payload : GoogleSubPayload) (token : String) (st : VerifyState)
    (hle : ∀ e, (scanLineItemsDebug payload.lineItems).1 = some e → e ≤ now) :
    (verify_purchase_core now uid payload token st).2.premium_until
      = latestActiveExpiry
          ((verify_purchase_core now uid payload token st).2.db) uid now := by
  cases hpar : scanLineItemsDebug payload.lineItems with
  | mk me pid' =>
    cases me with
    | none => simp [verify_purchase_core, hpar]
    | some e =>
        have hnow : ¬ (e > now) := not_lt.mpr (hle e (by rw [hpar]))
        simp [verify_purchase_core, hpar, hnow]

theorem apple_core_success_eq (now : Int) (uid : Nat) (pid : String)
    (reqTx : Option String) (payload : ApplePayload) (st : VerifyState)
    (tok : String) (pe : Int)
    (hb : payload.bundleId = some BUNDLE_ID_EXPECTED)
    (hp : payload.productId = some pid)
    (hpe : extract_expiry payload.expiresDate = some pe)
    (htok : extract_purchase_token reqTx payload = some tok) :
    verify_apple_core now uid pid reqTx payload st
      = (⟨is_premium_of
            (latestActiveExpiry
              (appleUpsert st.db uid now tok pid pe (decide (pe > now))) uid now)
            now,
          latestActiveExpiry
            (appleUpsert st.db uid now tok pid pe (decide (pe > now))) uid now⟩,
         ⟨appleUpsert st.db uid now tok pid pe (decide (pe > now)),
          latestActiveExpiry
            (appleUpsert st.db uid now tok pid pe (decide (pe > now))) uid now⟩) := by
  unfold verify_apple_core
  rw [if_neg (by simp [hb]), if_neg (by simp [hp])]
  simp only [hpe, htok]

/-- C1 counterexample: an Apple verify of an entitled receipt (expiry 80,
now 10) for a user whose cached `premium_until` is 100 stores 80 — the
re-derived latest active expiry — not `max(100, 80) = 100` as the claim
states. -/
theorem C1_apple_no_max_counterexample :
    (verify_apple_core 10 1 "p1" none
        ⟨some "kz.sarbazinfo5000.app", some "p1", some 80, some "t1", none⟩
        ⟨[⟨"sarbaz", 1, some "g", "g1", "google", 0, some 70, true⟩],
         some 100⟩).2.premium_until
      = some 80
    ∧ spec_max_with_cached (some 100) 80 = some 100
    ∧ (verify_apple_core 10 1 "p1" none
        ⟨some "kz.sarbazinfo5000.app", some "p1", some 80, some "t1", none⟩
        ⟨[⟨"sarbaz", 1, some "g", "g1", "google", 0, some 70, true⟩],
         some 100⟩).2.premium_until
      ≠ spec_max_with_cached (some 100) 80 := by
  exact ⟨rfl, rfl, by decide⟩

/-- C1 amended: after the upsert, the Google verify endpoint recomputes
`premium_until` exactly as the claim states (max with the cached value
when the receipt is active, re-derivation from the active rows
otherwise), while the Apple verify endpoint always re-derives it as the
latest expiry among the user's active unexpired rows (the just-upserted
row included), with no max against the cached value; on both endpoints a
not-entitled receipt never erases a still-valid entitlement carried by a
different record. -/
theorem C1_reconciliation :
    (∀ (now : Int) (uid : Nat) (payload : GoogleSubPayload) (token : String)
        (st : VerifyState) (e : Int) (pid : Option String),
        scanLineItemsDebug payload.lineItems = (some e, pid) → now < e →
        (verify_purchase_core now uid payload token st).2.premium_until
          = spec_max_with_cached st.premium_until e)
    ∧ (∀ (now : Int) (uid : Nat) (payload : GoogleSubPayload) (token : String)
        (st : VerifyState),
        (∀ e, (scanLineItemsDebug payload.lineItems).1 = some e → e ≤ now) →
        (verify_purchase_core now uid payload token st).2.premium_until
          = spec_latest_active uid now
              ((verify_purchase_core now uid payload token st).2.db))
    ∧ (∀ (now : Int) (uid : Nat) (pid : String) (reqTx : Option String)
        (payload : ApplePayload) (st : VerifyState) (tok : String) (pe : Int),
        payload.bundleId = some BUNDLE_ID_EXPECTED →
        payload.productId = some pid →
        extract_expiry payload.expiresDate = some pe →
        extract_purchase_token reqTx payload = some tok →
        (verify_apple_core now uid pid reqTx payload st).2.premium_until
          = spec_latest_active uid now
              ((verify_apple_core now uid pid reqTx payload st).2.db))
    ∧ (∀ (now : Int) (uid : Nat) (payload : GoogleSubPayload) (token : String)
        (st : VerifyState) (r : AppPurchase) (e' : Int),
        (∀ e, (scanLineItemsDebug payload.lineItems).1 = some e → e ≤ now) →
        r ∈ st.db → r.purchase_token ≠ token → r.user_id = uid →
        r.is_active = true → r.expires_at = some e' → now < e' →
        ∃ m, (verify_purchase_core now uid payload token st).2.premium_until
              = some m ∧ e' ≤ m)
    ∧ (∀ (now : Int) (uid : Nat) (pid : String) (reqTx : Option String)
        (payload : ApplePayload) (st : VerifyState) (tok : String) (pe : Int)
        (r : AppPurchase) (e' : Int),
        payload.bundleId = some BUNDLE_ID_EXPECTED →
        payload.productId = some pid →
        extract_expiry payload.expiresDate = some pe →
        extract_purchase_token reqTx payload = some tok →
        r ∈ st.db → r.purchase_token ≠ tok → r.user_id = uid →
        r.is_active = true → r.expires_at = some e' → now < e' →
        ∃ m, (verify_apple_core now uid pid reqTx payload st).2.premium_until
              = some m ∧ e' ≤ m) := by
  refine ⟨?_, ?_, ?_, ?_, ?_⟩
  · intro now uid payload token st e pid hpar he
    simp only [verify_purchase_core, hpar, decide_eq_true he]
    cases hc : st.premium_until with
    | none => rfl
    | some c =>
        simp only [spec_max_with_cached]
        by_cases hec : e > c
        · rw [if_pos hec]
          exact congrArg some (max_eq_right (le_of_lt hec)).symm
        · rw [if_neg hec]
          exact congrArg some (max_eq_left (not_lt.mp hec)).symm
  · intro now uid payload token st hle
    rw [google_core_premium_not_entitled now uid payload token st hle,
      latestActive_eq_spec]
  · intro now uid pid reqTx payload st tok pe hb hp hpe htok
    rw [apple_core_success_eq now uid pid reqTx payload st tok pe hb hp hpe htok]
    rw [latestActive_eq_spec]
  · intro now uid payload token st r e' hle hmem hrtok hruid hract hrexp hre'
    rw [google_core_premium_not_entitled now uid payload token st hle,
      latestActive_eq_spec]
    refine spec_latest_active_ge uid now _ r e' ?_ hruid hract hrexp hre'
    rw [google_core_db]
    exact mem_googleUpsert st.db uid now token _ _ _ r hmem hrtok
  · intro now uid pid reqTx payload st tok pe r e' hb hp hpe htok hmem hrtok
      hruid hract hrexp hre'
    rw [apple_core_success_eq now uid pid reqTx payload st tok pe hb hp hpe htok]
    rw [latestActive_eq_spec]
    exact spec_latest_active_ge uid now _ r e'
      (mem_appleUpsert st.db uid now tok pid pe _ r hmem hrtok) hruid hract
      hrexp hre'

/-- Witness for C1 (amended): the Google max-with-cached rule, the Apple
re-derivation, and the precedence guarantee, each at a concrete input. -/
theorem C1_reconciliation_witness :
    (verify_purchase_core 10 1 ⟨"S", [⟨some 50, some "p1"⟩]⟩ "g1"
        ⟨[], some 20⟩).2.premium_until = spec_max_with_cached (some 20) 50
    ∧ (verify_apple_core 10 1 "p1" none
        ⟨some "kz.sarbazinfo5000.app", some "p1", some 80, some "t1", none⟩
        ⟨[], some 100⟩).2.premium_until
      = spec_latest_active 1 10
          ((verify_apple_core 10 1 "p1" none
            ⟨some "kz.sarbazinfo5000.app", some "p1", some 80, some "t1", none⟩
            ⟨[], some 100⟩).2.db)
    ∧ (∃ m, (verify_purchase_core 10 1 ⟨"S", []⟩ "g2"
          ⟨[⟨"sarbaz", 1, some "p0", "other", "google", 0, some 99, true⟩],
           some 99⟩).2.premium_until = some m ∧ 99 ≤ m) :=
  ⟨C1_reconciliation.1 10 1 ⟨"S", [⟨some 50, some "p1"⟩]⟩ "g1" ⟨[], some 20⟩
      50 (some "p1") rfl (by decide),
   C1_reconciliation.2.2.1 10 1 "p1" none
      ⟨some "kz.sarbazinfo5000.app", some "p1", some 80, some "t1", none⟩
      ⟨[], some 100⟩ "t1" 80 rfl rfl rfl rfl,
   C1_reconciliation.2.2.2.1 10 1 ⟨"S", []⟩ "g2"
      ⟨[⟨"sarbaz", 1, some "p0", "other", "google", 0, some 99, true⟩], some 99⟩
      ⟨"sarbaz", 1, some "p0", "other", "google", 0, some 99, true⟩ 99
      (fun e h => nomatch h) (by decide) (by decide) rfl rfl rfl (by decide)⟩

/-- C5: verifying the same token twice against the same vendor data (at
the same instant) is idempotent — identical response, ledger and cached
`premium_until` — and each verify call keeps at most one ledger row per
purchase token, hence at most one per (vendor, token) pair: the second
verification updates the existing row instead of inserting. -/
theorem C5_verify_idempotent_unique :
    (∀ (now : Int) (uid : Nat) (payload : GoogleSubPayload) (token : String)
        (st : VerifyState),
        verify_purchase_core now uid payload token
            ((verify_purchase_core now uid payload token st).2)
          = verify_purchase_core now uid payload token st)
    ∧ (∀ (now : Int) (uid : Nat) (pid : String) (reqTx : Option String)
        (payload : ApplePayload) (st : VerifyState),
        verify_apple_core now uid pid reqTx payload
            ((verify_apple_core now uid pid reqTx payload st).2)
          = verify_apple_core now uid pid reqTx payload st)
    ∧ (∀ (now : Int) (uid : Nat) (payload : GoogleSubPayload) (token : String)
        (st : VerifyState),
        countToken st.db token ≤ 1 →
        countToken (verify_purchase_core now uid payload token st).2.db token ≤ 1
        ∧ countVendorToken (verify_purchase_core now uid payload token st).2.db
            "google" token ≤ 1)
    ∧ (∀ (now : Int) (uid : Nat) (pid : String) (reqTx : Option String)
        (payload : ApplePayload) (st : VerifyState) (token : String),
        countToken st.db token ≤ 1 →
        extract_purchase_token reqTx payload = some token →
        countToken (verify_apple_core now uid pid reqTx payload st).2.db token ≤ 1
        ∧ countVendorToken (verify_apple_core now uid pid reqTx payload st).2.db
            "apple" token ≤ 1) := by
  refine ⟨?_, ?_, ?_, ?_⟩
  · intro now uid payload token st
    cases hpar : scanLineItemsDebug payload.lineItems with
    | mk me pid' =>
      cases me with
      | none => simp only [verify_purchase_core, hpar, googleUpsert_idem]
      | some e =>
          by_cases he : e > now
          · simp only [verify_purchase_core, hpar, decide_eq_true he,
              googleUpsert_idem]
            cases hc : st.premium_until with
            | none => simp
            | some c =>
                by_cases hec : e > c
                · simp [hec]
                · simp [hec]
          · have hd : decide (e > now) = false := decide_eq_false he
            simp only [verify_purchase_core, hpar, hd, googleUpsert_idem]
  · intro now uid pid reqTx payload st
    by_cases hb : payload.bundleId ≠ some BUNDLE_ID_EXPECTED
    · simp [verify_apple_core, hb]
    · by_cases hp : payload.productId ≠ some pid
      · simp [verify_apple_core, hb, hp]
      · have hb' : payload.bundleId = some BUNDLE_ID_EXPECTED := not_not.mp hb
        have hp' : payload.productId = some pid := not_not.mp hp
        cases he : extract_expiry payload.expiresDate with
        | none => simp [verify_apple_core, hb, hp, he]
        | some pe =>
            cases ht : extract_purchase_token reqTx payload with
            | none => simp [verify_apple_core, hb, hp, he, ht]
            | some tok =>
                rw [apple_core_success_eq now uid pid reqTx payload st tok pe
                  hb' hp' he ht]
                rw [apple_core_success_eq now uid pid reqTx payload _ tok pe
                  hb' hp' he ht]
                simp [appleUpsert_idem]
  · intro now uid payload token st hcount
    have hcg : countToken (verify_purchase_core now uid payload token st).2.db
        token ≤ 1 := by
      rw [google_core_db, countToken_googleUpsert]
      by_cases h0 : countToken st.db token = 0
      · simp [h0]
      · rw [if_neg h0]
        exact hcount
    exact ⟨hcg, le_trans (countVendorToken_le_countToken _ _ _) hcg⟩
  · intro now uid pid reqTx payload st token hcount htok
    by_cases hb : payload.bundleId ≠ some BUNDLE_ID_EXPECTED
    · unfold verify_apple_core
      rw [if_pos hb]
      exact ⟨hcount, le_trans (countVendorToken_le_countToken _ _ _) hcount⟩
    · by_cases hp : payload.productId ≠ some pid
      · unfold verify_apple_core
        rw [if_neg hb, if_pos hp]
        exact ⟨hcount, le_trans (countVendorToken_le_countToken _ _ _) hcount⟩
      · have hb' : payload.bundleId = some BUNDLE_ID_EXPECTED := not_not.mp hb
        have hp' : payload.productId = some pid := not_not.mp hp
        cases he : extract_expiry payload.expiresDate with
        | none =>
            unfold verify_apple_core
            rw [if_neg hb, if_neg hp]
            simp only [he]
            exact ⟨hcount, le_trans (countVendorToken_le_countToken _ _ _) hcount⟩
        | some pe =>
            rw [apple_core_success_eq now uid pid reqTx payload st token pe
              hb' hp' he htok]
            have hca : countToken
                (appleUpsert st.db uid now token pid pe (decide (pe > now)))
                token ≤ 1 := by
              rw [countToken_appleUpsert]
              by_cases h0 : countToken st.db token = 0
              · simp [h0]
              · rw [if_neg h0]
                exact hcount
            exact ⟨hca, le_trans (countVendorToken_le_countToken _ _ _) hca⟩

/-- Witness for C5 at concrete inputs: a second Google verification of
the same token is a no-op, and row counts stay at one. -/
theorem C5_verify_idempotent_unique_witness :
    verify_purchase_core 10 1 ⟨"S", [⟨some 50, some "p1"⟩]⟩ "g1"
        ((verify_purchase_core 10 1 ⟨"S", [⟨some 50, some "p1"⟩]⟩ "g1"
          ⟨[], none⟩).2)
      = verify_purchase_core 10 1 ⟨"S", [⟨some 50, some "p1"⟩]⟩ "g1" ⟨[], none⟩
    ∧ (countToken (verify_purchase_core 10 1 ⟨"S", [⟨some 50, some "p1"⟩]⟩ "g1"
          ⟨[], none⟩).2.db "g1" ≤ 1
       ∧ countVendorToken (verify_purchase_core 10 1
          ⟨"S", [⟨some 50, some "p1"⟩]⟩ "g1" ⟨[], none⟩).2.db "google" "g1" ≤ 1)
    ∧ (countToken (verify_apple_core 10 1 "p1" none
          ⟨some "kz.sarbazinfo5000.app", some "p1", some 80, some "t1", none⟩
          ⟨[], none⟩).2.db "t1" ≤ 1
       ∧ countVendorToken (verify_apple_core 10 1 "p1" none
          ⟨some "kz.sarbazinfo5000.app", some "p1", some 80, some "t1", none⟩
          ⟨[], none⟩).2.db "apple" "t1" ≤ 1) :=
  ⟨C5_verify_idempotent_unique.1 10 1 ⟨"S", [⟨some 50, some "p1"⟩]⟩ "g1"
      ⟨[], none⟩,
   C5_verify_idempotent_unique.2.2.1 10 1 ⟨"S", [⟨some 50, some "p1"⟩]⟩ "g1"
      ⟨[], none⟩ (by decide),
   C5_verify_idempotent_unique.2.2.2 10 1 "p1" none
      ⟨some "kz.sarbazinfo5000.app", some "p1", some 80, some "t1", none⟩
      ⟨[], none⟩ "t1" (by decide) rfl⟩

end Sarbaz
